import Mathlib

/-!
Shallow embedding of the TCA8418 STM32 keypad-controller driver
(`src/tca8418.c`).  The I²C transport is modelled as an oracle that, for
the n-th bus transaction of a call, yields a HAL status and (for reads) the
byte delivered by the chip.  Each driver operation is a function of the
oracle that returns the HAL status it would return in C together with the
trace of bus operations it issued, plus any out-parameters.
-/

/-- HAL_StatusTypeDef of the STM32 HAL: HAL_OK, HAL_ERROR, HAL_BUSY,
HAL_TIMEOUT. -/
inductive HALStatus where
  | ok
  | error
  | busy
  | timeout
deriving DecidableEq, Repr

/-- Response of the bus to one transaction: the HAL status and, for a read,
the byte delivered. -/
structure BusResp where
  status : HALStatus
  value  : Nat
deriving DecidableEq, Repr

/-- The transport oracle: the response of the bus to the n-th transaction
issued during one driver call. -/
def Oracle : Type := Nat → BusResp

/-- One bus transaction as recorded in a trace: a single-register one-byte
read, or a single-register write of one byte. -/
inductive BusOp where
  | readOp  (reg : Nat)
  | writeOp (reg : Nat) (val : Nat)
deriving DecidableEq, Repr

/-- Bus progress inside one driver call: how many transactions were issued
so far (the next oracle index) and the trace of issued operations. -/
structure Bus where
  idx   : Nat
  trace : List BusOp
deriving DecidableEq, Repr

/-! Register addresses, from the `#define` table of `tca8418.c`. -/

def CFG          : Nat := 0x01
def INT_STAT     : Nat := 0x02
def KEY_LCK_EC   : Nat := 0x03
def KEY_EVENT_A  : Nat := 0x04
def GPIO_INT_EN1 : Nat := 0x1A
def GPIO_INT_EN2 : Nat := 0x1B
def GPIO_INT_EN3 : Nat := 0x1C
def KP_GPIO1     : Nat := 0x1D
def KP_GPIO2     : Nat := 0x1E

/-- `TCA8418_WriteRegister` (one byte): issues a write transaction, returns
the transport status. -/
def TCA8418_WriteRegister (o : Oracle) (s : Bus) (reg val : Nat) :
    HALStatus × Bus :=
  ((o s.idx).status, ⟨s.idx + 1, s.trace ++ [BusOp.writeOp reg val]⟩)

/-- `TCA8418_ReadRegister` (one byte): issues a read transaction, returns
the transport status and the byte read (a `uint8_t`, hence `% 256`). -/
def TCA8418_ReadRegister (o : Oracle) (s : Bus) (reg : Nat) :
    (HALStatus × Nat) × Bus :=
  (((o s.idx).status, (o s.idx).value % 256),
   ⟨s.idx + 1, s.trace ++ [BusOp.readOp reg]⟩)

/-- `TCA8418_KPConfig`: the five configuration writes, each aborting on the
first transport failure (`if(status != HAL_OK) return status;`). -/
def TCA8418_KPConfig (o : Oracle) (s : Bus) : HALStatus × Bus :=
  let r1 := TCA8418_WriteRegister o s KP_GPIO1 0x01
  if r1.1 ≠ HALStatus.ok then r1 else
  let r2 := TCA8418_WriteRegister o r1.2 KP_GPIO2 0x7F
  if r2.1 ≠ HALStatus.ok then r2 else
  let r3 := TCA8418_WriteRegister o r2.2 GPIO_INT_EN1 0x01
  if r3.1 ≠ HALStatus.ok then r3 else
  let r4 := TCA8418_WriteRegister o r3.2 GPIO_INT_EN2 0x7F
  if r4.1 ≠ HALStatus.ok then r4 else
  let r5 := TCA8418_WriteRegister o r4.2 GPIO_INT_EN3 0x00
  if r5.1 ≠ HALStatus.ok then r5 else
  (HALStatus.ok, r5.2)

/-- `TCA8418_EnableInterrupt`: the single write of the literal byte `0x01`
to the configuration register. -/
def TCA8418_EnableInterrupt (o : Oracle) (s : Bus) : HALStatus × Bus :=
  let r := TCA8418_WriteRegister o s CFG 0x01
  if r.1 ≠ HALStatus.ok then r else
  (HALStatus.ok, r.2)

/-- `TCA8418_Init`: `TCA8418_KPConfig` then `TCA8418_EnableInterrupt`,
aborting on the first failure. -/
def TCA8418_Init (o : Oracle) : HALStatus × Bus :=
  let r1 := TCA8418_KPConfig o ⟨0, []⟩
  if r1.1 ≠ HALStatus.ok then r1 else
  let r2 := TCA8418_EnableInterrupt o r1.2
  if r2.1 ≠ HALStatus.ok then r2 else
  (HALStatus.ok, r2.2)

/-- The six writes `TCA8418_Init` issues when every transaction succeeds,
in source order. -/
def initWrites : List BusOp :=
  [BusOp.writeOp KP_GPIO1 0x01, BusOp.writeOp KP_GPIO2 0x7F,
   BusOp.writeOp GPIO_INT_EN1 0x01, BusOp.writeOp GPIO_INT_EN2 0x7F,
   BusOp.writeOp GPIO_INT_EN3 0x00, BusOp.writeOp CFG 0x01]

/-- Result of `TCA8418_ReadKeyEvents`: the returned HAL status, the final
contents of the caller's `keyEvents` buffer and `numEvents` variable, and
the bus trace of the call. -/
structure RKEResult where
  status    : HALStatus
  keyEvents : List Nat
  numEvents : Nat
  bus       : Bus
deriving DecidableEq, Repr

/-- The FIFO-drain loop of `TCA8418_ReadKeyEvents`:
`for(uint8_t i = 0; i < eventCount; i++)` reading `KEY_EVENT_A` into
`keyEvents[i]`, aborting on the first failed read.  `n` counts the
iterations still to run; `i` is the current buffer index.  On a failed
read the buffer slot is not filled (the transaction delivered no data). -/
def readFifoLoop (o : Oracle) (s : Bus) (buf : List Nat) (i : Nat) :
    Nat → HALStatus × List Nat × Bus
  | 0 => (HALStatus.ok, buf, s)
  | n + 1 =>
    let r := TCA8418_ReadRegister o s KEY_EVENT_A
    if r.1.1 ≠ HALStatus.ok then (r.1.1, buf, r.2)
    else readFifoLoop o r.2 (buf.set i r.1.2) (i + 1) n

/-- `TCA8418_ReadKeyEvents`: check `INT_STAT` bit 0, read the event counter
from `KEY_LCK_EC`, clamp it to 10, drain the FIFO, store the count in
`*numEvents`, and clear the interrupt by writing `0x01` to `INT_STAT`.
`keyEvents` and `numEvents` are the caller's buffer and count variable
before the call. -/
def TCA8418_ReadKeyEvents (o : Oracle) (keyEvents : List Nat)
    (numEvents : Nat) : RKEResult :=
  let r1 := TCA8418_ReadRegister o ⟨0, []⟩ INT_STAT
  if r1.1.1 ≠ HALStatus.ok then ⟨r1.1.1, keyEvents, numEvents, r1.2⟩ else
  if r1.1.2 &&& 0x01 = 0 then ⟨HALStatus.ok, keyEvents, 0, r1.2⟩ else
  let r2 := TCA8418_ReadRegister o r1.2 KEY_LCK_EC
  if r2.1.1 ≠ HALStatus.ok then ⟨r2.1.1, keyEvents, numEvents, r2.2⟩ else
  let eventCount := if r2.1.2 > 10 then 10 else r2.1.2
  let l := readFifoLoop o r2.2 keyEvents 0 eventCount
  if l.1 ≠ HALStatus.ok then ⟨l.1, l.2.1, numEvents, l.2.2⟩ else
  let w := TCA8418_WriteRegister o l.2.2 INT_STAT 0x01
  if w.1 ≠ HALStatus.ok then ⟨w.1, l.2.1, eventCount, w.2⟩ else
  ⟨HALStatus.ok, l.2.1, eventCount, w.2⟩

/-- `TCA8418_LockKeypad`: write `0x01` to `KP_GPIO2` then `0x7F` to
`GPIO_INT_EN2`, aborting on the first failure. -/
def TCA8418_LockKeypad (o : Oracle) : HALStatus × Bus :=
  let r1 := TCA8418_WriteRegister o ⟨0, []⟩ KP_GPIO2 0x01
  if r1.1 ≠ HALStatus.ok then r1 else
  let r2 := TCA8418_WriteRegister o r1.2 GPIO_INT_EN2 0x7F
  if r2.1 ≠ HALStatus.ok then r2 else
  (HALStatus.ok, r2.2)

/-- `TCA8418_UnlockKeypad`: write `0x7F` to `KP_GPIO2` then `0x7F` to
`GPIO_INT_EN2`, aborting on the first failure. -/
def TCA8418_UnlockKeypad (o : Oracle) : HALStatus × Bus :=
  let r1 := TCA8418_WriteRegister o ⟨0, []⟩ KP_GPIO2 0x7F
  if r1.1 ≠ HALStatus.ok then r1 else
  let r2 := TCA8418_WriteRegister o r1.2 GPIO_INT_EN2 0x7F
  if r2.1 ≠ HALStatus.ok then r2 else
  (HALStatus.ok, r2.2)

/-- Number of FIFO reads (reads of `KEY_EVENT_A`) in a trace. -/
def fifoReadCount (t : List BusOp) : Nat :=
  (t.filter (fun op => op = BusOp.readOp KEY_EVENT_A)).length

/-- The value of the last write to register `reg` in a trace, if any.
Models the register value a plain read/write register holds after the
trace, given that every write sets the addressed register to the byte
written. -/
def lastWriteTo (reg : Nat) (t : List BusOp) : Option Nat :=
  t.foldl
    (fun acc op =>
      match op with
      | BusOp.writeOp r v => if r = reg then some v else acc
      | BusOp.readOp _ => acc)
    none

/-- Chip register state after a trace of bus operations, starting from
register contents `regs` (register address to byte).  A write sets the
addressed register to the byte written; a read leaves all registers
unchanged.  This models plain storage registers such as `CFG`. -/
def applyTrace (regs : Nat → Nat) (t : List BusOp) : Nat → Nat :=
  t.foldl
    (fun f op =>
      match op with
      | BusOp.writeOp r v => fun a => if a = r then v % 256 else f a
      | BusOp.readOp _ => f)
    regs
/-- An oracle on which every transaction succeeds. -/
def allOkOracle : Oracle := fun _ => ⟨HALStatus.ok, 0x01⟩

/-- Whether a trace entry is a write transaction. -/
def isWriteOp : BusOp → Bool
  | BusOp.writeOp _ _ => true
  | BusOp.readOp _ => false

/-- All-ok oracle delivering `INT_STAT = 0x01` (key-event bit set) and an
event counter of 3. -/
def drainOracle3 : Oracle := fun i =>
  ⟨HALStatus.ok, if i = 0 then 0x01 else if i = 1 then 3 else 0xAB⟩

/-- All-ok oracle delivering `INT_STAT = 0x01` and an event counter of 15,
above the 10-slot buffer capacity. -/
def overflowOracle : Oracle := fun i =>
  ⟨HALStatus.ok, if i = 0 then 0x01 else if i = 1 then 15 else 0xAB⟩

/-- All-ok oracle delivering `INT_STAT = 0x02`: some interrupt bit set but
the key-event bit (bit 0) clear. -/
def idleOracle : Oracle := fun i =>
  ⟨HALStatus.ok, if i = 0 then 0x02 else 0xAB⟩

/-- All-ok oracle delivering `KEY_LCK_EC = 0x13`: keypad-lock bit LCK1
(bit 4) set with event-counter bits (3:0) equal to 3. -/
def lockBitSetOracle : Oracle := fun i =>
  ⟨HALStatus.ok, if i = 0 then 0x01 else if i = 1 then 0x13 else 0xAB⟩

/-- All-ok oracle delivering `KEY_LCK_EC = 0x03`: lock bits clear,
event-counter bits equal to 3. -/
def lockBitClearOracle : Oracle := fun i =>
  ⟨HALStatus.ok, if i = 0 then 0x01 else if i = 1 then 0x03 else 0xAB⟩

/-- Oracle on which every transaction fails. -/
def busFailOracle : Oracle := fun _ => ⟨HALStatus.error, 0⟩

/-- Oracle with three pending events on which only the sixth transaction
(the interrupt-clear write) fails. -/
def clearFailOracle : Oracle := fun i =>
  if i = 5 then ⟨HALStatus.busy, 0⟩
  else ⟨HALStatus.ok, if i = 0 then 0x01 else if i = 1 then 3 else 0x45⟩

/-- C1 counterexample: with a fully succeeding transport, `TCA8418_Init`
issues six register writes, not four. -/
theorem init_four_writes_counterexample :
    (TCA8418_Init allOkOracle).1 = HALStatus.ok ∧
    (TCA8418_Init allOkOracle).2.trace.length = 6 ∧
    (TCA8418_Init allOkOracle).2.trace.length ≠ 4 := by decide

/-- C1 (amended): `TCA8418_Init` issues exactly six register writes, in the
documented register/value order (`KP_GPIO1 = 0x01`, `KP_GPIO2 = 0x7F`,
`GPIO_INT_EN1 = 0x01`, `GPIO_INT_EN2 = 0x7F`, `GPIO_INT_EN3 = 0x00`,
`CFG = 0x01`); if the transport fails at write `k`, no later write is
issued and the first transport error is returned. -/
theorem TCA8418_Init_writes (o : Oracle) :
    ((∀ i, i < 6 → (o i).status = HALStatus.ok) →
       TCA8418_Init o = (HALStatus.ok, ⟨6, initWrites⟩)) ∧
    (∀ k, k < 6 → (∀ i, i < k → (o i).status = HALStatus.ok) →
       (o k).status ≠ HALStatus.ok →
       TCA8418_Init o = ((o k).status, ⟨k + 1, initWrites.take (k + 1)⟩)) := by
  constructor
  · intro h
    have h0 := h 0 (by omega); have h1 := h 1 (by omega)
    have h2 := h 2 (by omega); have h3 := h 3 (by omega)
    have h4 := h 4 (by omega); have h5 := h 5 (by omega)
    simp [TCA8418_Init, TCA8418_KPConfig, TCA8418_EnableInterrupt,
      TCA8418_WriteRegister, h0, h1, h2, h3, h4, h5, initWrites]
  · intro k hk hik hbad
    interval_cases k
    · simp [TCA8418_Init, TCA8418_KPConfig, TCA8418_EnableInterrupt,
        TCA8418_WriteRegister, hbad, initWrites]
    · have h0 := hik 0 (by omega)
      simp [TCA8418_Init, TCA8418_KPConfig, TCA8418_EnableInterrupt,
        TCA8418_WriteRegister, h0, hbad, initWrites]
    · have h0 := hik 0 (by omega); have h1 := hik 1 (by omega)
      simp [TCA8418_Init, TCA8418_KPConfig, TCA8418_EnableInterrupt,
        TCA8418_WriteRegister, h0, h1, hbad, initWrites]
    · have h0 := hik 0 (by omega); have h1 := hik 1 (by omega)
      have h2 := hik 2 (by omega)
      simp [TCA8418_Init, TCA8418_KPConfig, TCA8418_EnableInterrupt,
        TCA8418_WriteRegister, h0, h1, h2, hbad, initWrites]
    · have h0 := hik 0 (by omega); have h1 := hik 1 (by omega)
      have h2 := hik 2 (by omega); have h3 := hik 3 (by omega)
      simp [TCA8418_Init, TCA8418_KPConfig, TCA8418_EnableInterrupt,
        TCA8418_WriteRegister, h0, h1, h2, h3, hbad, initWrites]
    · have h0 := hik 0 (by omega); have h1 := hik 1 (by omega)
      have h2 := hik 2 (by omega); have h3 := hik 3 (by omega)
      have h4 := hik 4 (by omega)
      simp [TCA8418_Init, TCA8418_KPConfig, TCA8418_EnableInterrupt,
        TCA8418_WriteRegister, h0, h1, h2, h3, h4, hbad, initWrites]

/-- Witness for C1: the all-ok run of `TCA8418_Init`. -/
theorem TCA8418_Init_writes_witness :
    TCA8418_Init allOkOracle = (HALStatus.ok, ⟨6, initWrites⟩) :=
  (TCA8418_Init_writes allOkOracle).1 (fun _ _ => rfl)

/-- If the `n` transactions the FIFO loop issues all succeed, the loop
returns `HAL_OK`, appends exactly `n` reads of `KEY_EVENT_A` to the trace,
and leaves buffer slots at positions `≥ i + n` unchanged. -/
theorem readFifoLoop_ok (o : Oracle) :
    ∀ (n : Nat) (s : Bus) (buf : List Nat) (i : Nat),
      (∀ j, j < n → (o (s.idx + j)).status = HALStatus.ok) →
      ∃ buf',
        readFifoLoop o s buf i n =
          (HALStatus.ok, buf',
           ⟨s.idx + n,
            s.trace ++ List.replicate n (BusOp.readOp KEY_EVENT_A)⟩) ∧
        buf'.length = buf.length ∧
        ∀ j, i + n ≤ j → buf'[j]? = buf[j]? := by
  intro n
  induction n with
  | zero =>
    intro s buf i _
    exact ⟨buf, by simp [readFifoLoop], rfl, fun j _ => rfl⟩
  | succ n ih =>
    intro s buf i h
    have h0 : (o s.idx).status = HALStatus.ok := by
      have := h 0 (by omega); simpa using this
    have hrest : ∀ j, j < n →
        (o ((⟨s.idx + 1, s.trace ++ [BusOp.readOp KEY_EVENT_A]⟩ : Bus).idx + j)).status
          = HALStatus.ok := by
      intro j hj
      have := h (j + 1) (by omega)
      simpa [Nat.add_assoc, Nat.add_comm 1 j] using this
    obtain ⟨buf', heq, hlen, hout⟩ :=
      ih ⟨s.idx + 1, s.trace ++ [BusOp.readOp KEY_EVENT_A]⟩
        (buf.set i ((o s.idx).value % 256)) (i + 1) hrest
    refine ⟨buf', ?_, ?_, ?_⟩
    · simp only [readFifoLoop, TCA8418_ReadRegister, h0, ne_eq,
        not_true_eq_false, if_false]
      rw [heq]
      simp [List.replicate_succ, Nat.add_assoc, Nat.add_comm 1 n]
    · simpa using hlen
    · intro j hj
      have h1 := hout j (by omega)
      rw [h1, List.getElem?_set_ne (by omega)]

/-- If the first `m` transactions of the FIFO loop succeed and transaction
`m` (zero-based, `m < n`) fails, the loop returns that transaction's
status. -/
theorem readFifoLoop_fail (o : Oracle) :
    ∀ (m n : Nat) (s : Bus) (buf : List Nat) (i : Nat),
      m < n →
      (∀ j, j < m → (o (s.idx + j)).status = HALStatus.ok) →
      (o (s.idx + m)).status ≠ HALStatus.ok →
      ∃ buf' b,
        readFifoLoop o s buf i n = ((o (s.idx + m)).status, buf', b) := by
  intro m
  induction m with
  | zero =>
    intro n s buf i hn _ hbad
    obtain ⟨n, rfl⟩ : ∃ k, n = k + 1 := ⟨n - 1, by omega⟩
    simp only [Nat.add_zero] at hbad
    refine ⟨buf, ⟨s.idx + 1, s.trace ++ [BusOp.readOp KEY_EVENT_A]⟩, ?_⟩
    simp [readFifoLoop, TCA8418_ReadRegister, hbad]
  | succ m ih =>
    intro n s buf i hn h hbad
    obtain ⟨n, rfl⟩ : ∃ k, n = k + 1 := ⟨n - 1, by omega⟩
    have h0 : (o s.idx).status = HALStatus.ok := by
      have := h 0 (by omega); simpa using this
    have hrest : ∀ j, j < m →
        (o ((⟨s.idx + 1, s.trace ++ [BusOp.readOp KEY_EVENT_A]⟩ : Bus).idx + j)).status
          = HALStatus.ok := by
      intro j hj
      have := h (j + 1) (by omega)
      simpa [Nat.add_assoc, Nat.add_comm 1 j] using this
    have hbad' :
        (o ((⟨s.idx + 1, s.trace ++ [BusOp.readOp KEY_EVENT_A]⟩ : Bus).idx + m)).status
          ≠ HALStatus.ok := by
      simpa [Nat.add_assoc, Nat.add_comm 1 m] using hbad
    obtain ⟨buf', b, heq⟩ :=
      ih n ⟨s.idx + 1, s.trace ++ [BusOp.readOp KEY_EVENT_A]⟩
        (buf.set i ((o s.idx).value % 256)) (i + 1) (by omega) hrest hbad'
    refine ⟨buf', b, ?_⟩
    simp only [readFifoLoop, TCA8418_ReadRegister, h0, ne_eq,
      not_true_eq_false, if_false]
    rw [heq]
    simp [Nat.add_assoc, Nat.add_comm 1 m]

/-- C2: if the key-event bit is set, the event counter reads `n ≤ 10`, and
every transaction succeeds, `TCA8418_ReadKeyEvents` returns `HAL_OK`, sets
`numEvents` to `n`, and issues exactly the status read, the counter read,
`n` FIFO reads, and then the single interrupt-clear write, in that
order. -/
theorem TCA8418_ReadKeyEvents_drain (o : Oracle) (buf : List Nat)
    (n0 n : Nat)
    (hok : ∀ i, (o i).status = HALStatus.ok)
    (hbit : (o 0).value % 256 &&& 0x01 ≠ 0)
    (hn : (o 1).value % 256 = n) (hle : n ≤ 10) :
    (TCA8418_ReadKeyEvents o buf n0).status = HALStatus.ok ∧
    (TCA8418_ReadKeyEvents o buf n0).numEvents = n ∧
    (TCA8418_ReadKeyEvents o buf n0).bus.trace =
      [BusOp.readOp INT_STAT, BusOp.readOp KEY_LCK_EC] ++
        List.replicate n (BusOp.readOp KEY_EVENT_A) ++
        [BusOp.writeOp INT_STAT 0x01] := by
  obtain ⟨buf', heq, hlen, hout⟩ :=
    readFifoLoop_ok o n ⟨2, [BusOp.readOp INT_STAT, BusOp.readOp KEY_LCK_EC]⟩
      buf 0 (fun j _ => hok _)
  have h10 : ¬ (10 < n) := by omega
  simp only [TCA8418_ReadKeyEvents, TCA8418_ReadRegister,
    TCA8418_WriteRegister, hok, hbit, hn, h10, gt_iff_lt, ne_eq,
    not_true_eq_false, if_false, ite_false, ite_true, not_false_eq_true,
    List.nil_append, List.singleton_append, Nat.zero_add, Nat.reduceAdd]
  rw [heq]
  simp [hok]

/-- Witness for C2: a run with three pending events. -/
theorem TCA8418_ReadKeyEvents_drain_witness :
    (TCA8418_ReadKeyEvents drainOracle3 (List.replicate 10 0) 42).status =
      HALStatus.ok ∧
    (TCA8418_ReadKeyEvents drainOracle3 (List.replicate 10 0) 42).numEvents
      = 3 ∧
    (TCA8418_ReadKeyEvents drainOracle3 (List.replicate 10 0) 42).bus.trace =
      [BusOp.readOp INT_STAT, BusOp.readOp KEY_LCK_EC] ++
        List.replicate 3 (BusOp.readOp KEY_EVENT_A) ++
        [BusOp.writeOp INT_STAT 0x01] :=
  TCA8418_ReadKeyEvents_drain drainOracle3 (List.replicate 10 0) 42 3
    (fun _ => rfl) (by decide) (by decide) (by decide)

/-- C3: if the key-event bit is set, the event counter reads more than 10,
and every transaction succeeds, `TCA8418_ReadKeyEvents` clamps the count:
`numEvents` becomes 10, exactly 10 FIFO reads are issued, and the caller's
buffer is unchanged at every position at index 10 or beyond. -/
theorem TCA8418_ReadKeyEvents_clamp (o : Oracle) (buf : List Nat)
    (n0 : Nat)
    (hok : ∀ i, (o i).status = HALStatus.ok)
    (hbit : (o 0).value % 256 &&& 0x01 ≠ 0)
    (hgt : 10 < (o 1).value % 256) :
    (TCA8418_ReadKeyEvents o buf n0).numEvents = 10 ∧
    fifoReadCount (TCA8418_ReadKeyEvents o buf n0).bus.trace = 10 ∧
    (TCA8418_ReadKeyEvents o buf n0).keyEvents.length = buf.length ∧
    ∀ j, 10 ≤ j →
      (TCA8418_ReadKeyEvents o buf n0).keyEvents[j]? = buf[j]? := by
  obtain ⟨buf', heq, hlen, hout⟩ :=
    readFifoLoop_ok o 10 ⟨2, [BusOp.readOp INT_STAT, BusOp.readOp KEY_LCK_EC]⟩
      buf 0 (fun j _ => hok _)
  simp only [TCA8418_ReadKeyEvents, TCA8418_ReadRegister,
    TCA8418_WriteRegister, hok, hbit, hgt, gt_iff_lt, ne_eq,
    not_true_eq_false, if_false, if_true, ite_false, ite_true,
    not_false_eq_true, List.nil_append, List.singleton_append,
    Nat.zero_add, Nat.reduceAdd]
  rw [heq]
  refine ⟨by simp, ?_, by simpa using hlen, ?_⟩
  · simp only [ne_eq, not_true_eq_false, if_false, ite_true, ite_false,
      not_false_eq_true, reduceCtorEq]
    simp [fifoReadCount, INT_STAT, KEY_EVENT_A, KEY_LCK_EC]
  · intro j hj
    simpa using hout j (by omega)

/-- Witness for C3: a run with a reported counter of 15. -/
theorem TCA8418_ReadKeyEvents_clamp_witness :
    (TCA8418_ReadKeyEvents overflowOracle (List.replicate 10 0) 42).numEvents
      = 10 ∧
    fifoReadCount
      (TCA8418_ReadKeyEvents overflowOracle
        (List.replicate 10 0) 42).bus.trace = 10 ∧
    (TCA8418_ReadKeyEvents overflowOracle
      (List.replicate 10 0) 42).keyEvents.length =
      (List.replicate 10 (0 : Nat)).length ∧
    ∀ j, 10 ≤ j →
      (TCA8418_ReadKeyEvents overflowOracle
        (List.replicate 10 0) 42).keyEvents[j]? =
        (List.replicate 10 (0 : Nat))[j]? :=
  TCA8418_ReadKeyEvents_clamp overflowOracle (List.replicate 10 0) 42
    (fun _ => rfl) (by decide) (by decide)

/-- C4: if the interrupt-status read succeeds and the key-event bit is
clear, `TCA8418_ReadKeyEvents` returns `HAL_OK` with `numEvents = 0` after
exactly one register read and nothing else; and `HAL_OK` is distinct from
every failure status. -/
theorem TCA8418_ReadKeyEvents_noEvents (o : Oracle) (buf : List Nat)
    (n0 : Nat)
    (hok : (o 0).status = HALStatus.ok)
    (hbit : (o 0).value % 256 &&& 0x01 = 0) :
    TCA8418_ReadKeyEvents o buf n0 =
      ⟨HALStatus.ok, buf, 0, ⟨1, [BusOp.readOp INT_STAT]⟩⟩ ∧
    HALStatus.ok ≠ HALStatus.error ∧ HALStatus.ok ≠ HALStatus.busy ∧
    HALStatus.ok ≠ HALStatus.timeout := by
  refine ⟨?_, by decide, by decide, by decide⟩
  simp [TCA8418_ReadKeyEvents, TCA8418_ReadRegister, hok, hbit]

/-- Witness for C4: a run with the key-event bit clear. -/
theorem TCA8418_ReadKeyEvents_noEvents_witness :
    TCA8418_ReadKeyEvents idleOracle (List.replicate 10 0) 42 =
      ⟨HALStatus.ok, List.replicate 10 0, 0, ⟨1, [BusOp.readOp INT_STAT]⟩⟩ ∧
    HALStatus.ok ≠ HALStatus.error ∧ HALStatus.ok ≠ HALStatus.busy ∧
    HALStatus.ok ≠ HALStatus.timeout :=
  TCA8418_ReadKeyEvents_noEvents idleOracle (List.replicate 10 0) 42
    rfl (by decide)

/-- C5 (code slip): the code uses the whole `KEY_LCK_EC` byte as the event
count.  Two register values with identical counter bits (3:0 = 3) but a
different keypad-lock bit (bit 4) yield different `numEvents` (10 vs 3)
and a different number of FIFO reads, so the lock bits do affect the
drain, contrary to the documented "only the counter bits are meaningful"
semantics of the register. -/
theorem readKeyEvents_uses_lock_bits :
    0x13 &&& 0x0F = 0x03 &&& 0x0F ∧
    (TCA8418_ReadKeyEvents lockBitSetOracle (List.replicate 10 0) 0).numEvents
      = 10 ∧
    (TCA8418_ReadKeyEvents lockBitClearOracle
      (List.replicate 10 0) 0).numEvents = 3 ∧
    fifoReadCount
      (TCA8418_ReadKeyEvents lockBitSetOracle
        (List.replicate 10 0) 0).bus.trace = 10 ∧
    fifoReadCount
      (TCA8418_ReadKeyEvents lockBitClearOracle
        (List.replicate 10 0) 0).bus.trace = 3 := by decide

/-- C6: a transport failure on the first write of `TCA8418_LockKeypad` (or
of `TCA8418_UnlockKeypad`) aborts before the second write is attempted,
and a failure on the second write aborts after exactly the two attempted
writes; in both cases the failing transaction's status is returned. -/
theorem lockUnlock_abort_on_failure (o : Oracle) :
    ((o 0).status ≠ HALStatus.ok →
       TCA8418_LockKeypad o =
         ((o 0).status, ⟨1, [BusOp.writeOp KP_GPIO2 0x01]⟩) ∧
       TCA8418_UnlockKeypad o =
         ((o 0).status, ⟨1, [BusOp.writeOp KP_GPIO2 0x7F]⟩)) ∧
    ((o 0).status = HALStatus.ok → (o 1).status ≠ HALStatus.ok →
       TCA8418_LockKeypad o =
         ((o 1).status,
          ⟨2, [BusOp.writeOp KP_GPIO2 0x01,
               BusOp.writeOp GPIO_INT_EN2 0x7F]⟩) ∧
       TCA8418_UnlockKeypad o =
         ((o 1).status,
          ⟨2, [BusOp.writeOp KP_GPIO2 0x7F,
               BusOp.writeOp GPIO_INT_EN2 0x7F]⟩)) := by
  constructor
  · intro hbad
    constructor <;>
      simp [TCA8418_LockKeypad, TCA8418_UnlockKeypad,
        TCA8418_WriteRegister, hbad]
  · intro h0 hbad
    constructor <;>
      simp [TCA8418_LockKeypad, TCA8418_UnlockKeypad,
        TCA8418_WriteRegister, h0, hbad]

/-- Witness for C6: a transport that fails on the first write. -/
theorem lockUnlock_abort_on_failure_witness :
    TCA8418_LockKeypad busFailOracle =
      (HALStatus.error, ⟨1, [BusOp.writeOp KP_GPIO2 0x01]⟩) ∧
    TCA8418_UnlockKeypad busFailOracle =
      (HALStatus.error, ⟨1, [BusOp.writeOp KP_GPIO2 0x7F]⟩) :=
  (lockUnlock_abort_on_failure busFailOracle).1 (by decide)

/-- C7: after a fully successful `TCA8418_LockKeypad` immediately followed
by a fully successful `TCA8418_UnlockKeypad`, the last value written to
`KP_GPIO2` and the last value written to `GPIO_INT_EN2` are both `0x7F`,
the same final values a successful `TCA8418_Init` establishes. -/
theorem lock_then_unlock_restores (o1 o2 o3 : Oracle)
    (h1 : ∀ i, (o1 i).status = HALStatus.ok)
    (h2 : ∀ i, (o2 i).status = HALStatus.ok)
    (h3 : ∀ i, (o3 i).status = HALStatus.ok) :
    lastWriteTo KP_GPIO2
        ((TCA8418_LockKeypad o1).2.trace ++
          (TCA8418_UnlockKeypad o2).2.trace) = some 0x7F ∧
    lastWriteTo GPIO_INT_EN2
        ((TCA8418_LockKeypad o1).2.trace ++
          (TCA8418_UnlockKeypad o2).2.trace) = some 0x7F ∧
    lastWriteTo KP_GPIO2
        ((TCA8418_LockKeypad o1).2.trace ++
          (TCA8418_UnlockKeypad o2).2.trace)
      = lastWriteTo KP_GPIO2 (TCA8418_Init o3).2.trace ∧
    lastWriteTo GPIO_INT_EN2
        ((TCA8418_LockKeypad o1).2.trace ++
          (TCA8418_UnlockKeypad o2).2.trace)
      = lastWriteTo GPIO_INT_EN2 (TCA8418_Init o3).2.trace := by
  simp only [TCA8418_LockKeypad, TCA8418_UnlockKeypad, TCA8418_Init,
    TCA8418_KPConfig, TCA8418_EnableInterrupt, TCA8418_WriteRegister,
    h1, h2, h3, ne_eq, not_true_eq_false, if_false, ite_false, ite_true,
    not_false_eq_true]
  decide

/-- Witness for C7: all-ok lock, unlock and init runs. -/
theorem lock_then_unlock_restores_witness :
    lastWriteTo KP_GPIO2
        ((TCA8418_LockKeypad allOkOracle).2.trace ++
          (TCA8418_UnlockKeypad allOkOracle).2.trace) = some 0x7F ∧
    lastWriteTo GPIO_INT_EN2
        ((TCA8418_LockKeypad allOkOracle).2.trace ++
          (TCA8418_UnlockKeypad allOkOracle).2.trace) = some 0x7F ∧
    lastWriteTo KP_GPIO2
        ((TCA8418_LockKeypad allOkOracle).2.trace ++
          (TCA8418_UnlockKeypad allOkOracle).2.trace)
      = lastWriteTo KP_GPIO2 (TCA8418_Init allOkOracle).2.trace ∧
    lastWriteTo GPIO_INT_EN2
        ((TCA8418_LockKeypad allOkOracle).2.trace ++
          (TCA8418_UnlockKeypad allOkOracle).2.trace)
      = lastWriteTo GPIO_INT_EN2 (TCA8418_Init allOkOracle).2.trace :=
  lock_then_unlock_restores allOkOracle allOkOracle allOkOracle
    (fun _ => rfl) (fun _ => rfl) (fun _ => rfl)

/-- C8: on fully successful runs, `TCA8418_LockKeypad` and
`TCA8418_UnlockKeypad` write the identical value `0x7F` to `GPIO_INT_EN2`;
their traces differ only in the value written to `KP_GPIO2` (`0x01` vs
`0x7F`). -/
theorem lock_unlock_same_int_en2 (o1 o2 : Oracle)
    (h1 : ∀ i, (o1 i).status = HALStatus.ok)
    (h2 : ∀ i, (o2 i).status = HALStatus.ok) :
    (TCA8418_LockKeypad o1).2.trace =
      [BusOp.writeOp KP_GPIO2 0x01, BusOp.writeOp GPIO_INT_EN2 0x7F] ∧
    (TCA8418_UnlockKeypad o2).2.trace =
      [BusOp.writeOp KP_GPIO2 0x7F, BusOp.writeOp GPIO_INT_EN2 0x7F] ∧
    lastWriteTo GPIO_INT_EN2 (TCA8418_LockKeypad o1).2.trace =
      lastWriteTo GPIO_INT_EN2 (TCA8418_UnlockKeypad o2).2.trace ∧
    lastWriteTo GPIO_INT_EN2 (TCA8418_LockKeypad o1).2.trace =
      some 0x7F := by
  simp only [TCA8418_LockKeypad, TCA8418_UnlockKeypad,
    TCA8418_WriteRegister, h1, h2, ne_eq, not_true_eq_false, if_false,
    ite_false, ite_true, not_false_eq_true]
  decide

/-- Witness for C8: all-ok lock and unlock runs. -/
theorem lock_unlock_same_int_en2_witness :
    (TCA8418_LockKeypad allOkOracle).2.trace =
      [BusOp.writeOp KP_GPIO2 0x01, BusOp.writeOp GPIO_INT_EN2 0x7F] ∧
    (TCA8418_UnlockKeypad allOkOracle).2.trace =
      [BusOp.writeOp KP_GPIO2 0x7F, BusOp.writeOp GPIO_INT_EN2 0x7F] ∧
    lastWriteTo GPIO_INT_EN2 (TCA8418_LockKeypad allOkOracle).2.trace =
      lastWriteTo GPIO_INT_EN2 (TCA8418_UnlockKeypad allOkOracle).2.trace ∧
    lastWriteTo GPIO_INT_EN2 (TCA8418_LockKeypad allOkOracle).2.trace =
      some 0x7F :=
  lock_unlock_same_int_en2 allOkOracle allOkOracle
    (fun _ => rfl) (fun _ => rfl)

/-- C10: `TCA8418_EnableInterrupt` issues a single write of the literal
byte `0x01` to `CFG` (no read, hence no read-modify-write), so after a
fully successful `TCA8418_Init` the configuration register holds exactly
`0x01` whatever its prior contents; the whole init trace consists of
writes only. -/
theorem init_cfg_is_literal_write (o : Oracle) (regs : Nat → Nat)
    (hok : ∀ i, (o i).status = HALStatus.ok) :
    (∀ s : Bus, (o s.idx).status = HALStatus.ok →
       TCA8418_EnableInterrupt o s =
         (HALStatus.ok, ⟨s.idx + 1, s.trace ++ [BusOp.writeOp CFG 0x01]⟩)) ∧
    (TCA8418_Init o).2.trace = initWrites ∧
    initWrites.all isWriteOp = true ∧
    applyTrace regs (TCA8418_Init o).2.trace CFG = 0x01 := by
  refine ⟨?_, ?_, by decide, ?_⟩
  · intro s hs
    simp [TCA8418_EnableInterrupt, TCA8418_WriteRegister, hs]
  · simp [TCA8418_Init, TCA8418_KPConfig, TCA8418_EnableInterrupt,
      TCA8418_WriteRegister, hok, initWrites]
  · simp only [TCA8418_Init, TCA8418_KPConfig, TCA8418_EnableInterrupt,
      TCA8418_WriteRegister, hok, ne_eq, not_true_eq_false, if_false,
      ite_false, ite_true, not_false_eq_true]
    simp [applyTrace, CFG, KP_GPIO1, KP_GPIO2, GPIO_INT_EN1, GPIO_INT_EN2,
      GPIO_INT_EN3]

/-- Witness for C10: an all-ok init run over registers previously holding
`0xFF`. -/
theorem init_cfg_is_literal_write_witness :
    (TCA8418_Init allOkOracle).2.trace = initWrites ∧
    initWrites.all isWriteOp = true ∧
    applyTrace (fun _ => 0xFF) (TCA8418_Init allOkOracle).2.trace CFG
      = 0x01 := by
  have h := init_cfg_is_literal_write allOkOracle (fun _ => 0xFF)
    (fun _ => rfl)
  exact ⟨h.2.1, h.2.2.1, h.2.2.2⟩

/-- C9: `TCA8418_ReadKeyEvents` assigns `numEvents` in exactly two cases:
it assigns 0 when the key-event bit is clear, and it assigns the clamped
count only once every FIFO read has succeeded.  If the status read, the
counter read or any FIFO read fails, `numEvents` keeps the caller's prior
value; if only the final interrupt-clear write fails, `numEvents` already
holds the full clamped count while the write's error is returned. -/
theorem readKeyEvents_numEvents_assignment (o : Oracle) (buf : List Nat)
    (n0 : Nat) :
    ((o 0).status ≠ HALStatus.ok →
       (TCA8418_ReadKeyEvents o buf n0).numEvents = n0) ∧
    ((o 0).status = HALStatus.ok → (o 0).value % 256 &&& 0x01 = 0 →
       (TCA8418_ReadKeyEvents o buf n0).numEvents = 0) ∧
    ((o 0).status = HALStatus.ok → (o 0).value % 256 &&& 0x01 ≠ 0 →
       (o 1).status ≠ HALStatus.ok →
       (TCA8418_ReadKeyEvents o buf n0).numEvents = n0) ∧
    (∀ m, (o 0).status = HALStatus.ok → (o 0).value % 256 &&& 0x01 ≠ 0 →
       (o 1).status = HALStatus.ok →
       m < (if 10 < (o 1).value % 256 then 10 else (o 1).value % 256) →
       (∀ j, j < m → (o (2 + j)).status = HALStatus.ok) →
       (o (2 + m)).status ≠ HALStatus.ok →
       (TCA8418_ReadKeyEvents o buf n0).numEvents = n0 ∧
       (TCA8418_ReadKeyEvents o buf n0).status = (o (2 + m)).status) ∧
    ((o 0).status = HALStatus.ok → (o 0).value % 256 &&& 0x01 ≠ 0 →
       (o 1).status = HALStatus.ok →
       (∀ j, j < (if 10 < (o 1).value % 256 then 10 else (o 1).value % 256) →
          (o (2 + j)).status = HALStatus.ok) →
       (o (2 + (if 10 < (o 1).value % 256 then 10 else
           (o 1).value % 256))).status ≠ HALStatus.ok →
       (TCA8418_ReadKeyEvents o buf n0).numEvents =
         (if 10 < (o 1).value % 256 then 10 else (o 1).value % 256) ∧
       (TCA8418_ReadKeyEvents o buf n0).status =
         (o (2 + (if 10 < (o 1).value % 256 then 10 else
             (o 1).value % 256))).status) := by
  refine ⟨?_, ?_, ?_, ?_, ?_⟩
  · intro hbad
    simp [TCA8418_ReadKeyEvents, TCA8418_ReadRegister, hbad]
  · intro h0 hbit
    simp [TCA8418_ReadKeyEvents, TCA8418_ReadRegister, h0, hbit]
  · intro h0 hbit hbad
    simp only [Nat.and_one_is_mod] at hbit
    simp [TCA8418_ReadKeyEvents, TCA8418_ReadRegister, h0, hbit, hbad]
  · intro m h0 hbit h1 hm hall hbad
    obtain ⟨buf2, b, heq⟩ :=
      readFifoLoop_fail o m
        (if 10 < (o 1).value % 256 then 10 else (o 1).value % 256)
        ⟨2, [BusOp.readOp INT_STAT, BusOp.readOp KEY_LCK_EC]⟩ buf 0 hm
        (fun j hj => hall j hj) hbad
    simp only [TCA8418_ReadKeyEvents, TCA8418_ReadRegister,
      TCA8418_WriteRegister, h0, hbit, h1, ne_eq, not_true_eq_false,
      if_false, ite_false, ite_true, not_false_eq_true, List.nil_append,
      List.singleton_append, Nat.zero_add, Nat.reduceAdd, gt_iff_lt]
    rw [heq]
    simp only [Bus.idx] at hbad ⊢
    simp [hbad]
  · intro h0 hbit h1 hall hbad
    obtain ⟨buf2, heq, hlen, hout⟩ :=
      readFifoLoop_ok o
        (if 10 < (o 1).value % 256 then 10 else (o 1).value % 256)
        ⟨2, [BusOp.readOp INT_STAT, BusOp.readOp KEY_LCK_EC]⟩ buf 0
        (fun j hj => hall j hj)
    simp only [TCA8418_ReadKeyEvents, TCA8418_ReadRegister,
      TCA8418_WriteRegister, h0, hbit, h1, ne_eq, not_true_eq_false,
      if_false, ite_false, ite_true, not_false_eq_true, List.nil_append,
      List.singleton_append, Nat.zero_add, Nat.reduceAdd, gt_iff_lt]
    rw [heq]
    simp [hbad]

/-- Witness for C9: three pending events with only the interrupt-clear
write failing; `numEvents` already holds 3 while `HAL_BUSY` is
returned. -/
theorem readKeyEvents_numEvents_assignment_witness :
    (TCA8418_ReadKeyEvents clearFailOracle
      (List.replicate 10 0) 42).numEvents = 3 ∧
    (TCA8418_ReadKeyEvents clearFailOracle
      (List.replicate 10 0) 42).status = HALStatus.busy := by
  have h :=
    (readKeyEvents_numEvents_assignment clearFailOracle
      (List.replicate 10 0) 42).2.2.2.2 rfl (by decide) rfl (by decide)
      (by decide)
  simpa [clearFailOracle] using h
